import Mathlib

/-!
Verification of the Milkspider v3.1 control core (src/v3.1) against its
natural-language specification.  The C sources are shallowly embedded:
machine integers become Nat (with explicit mod 2^32 / mod 2^16 where wrap
matters), stateful modules become explicit state records with pure step
functions, and hardware writes become lists of (channel, microseconds)
pairs recording the value each call hands to the PWM chip.
-/

set_option maxRecDepth 3500

namespace Milkspider

/-! ### Constants from common/limits.h -/

def SERVO_PWM_MIN_US : Nat := 500
def SERVO_PWM_MAX_US : Nat := 2500
def SERVO_PWM_NEUTRAL_US : Nat := 1500
def SERVO_COUNT_TOTAL : Nat := 13
def HEARTBEAT_TIMEOUT_MS : Nat := 250
def MOTION_UPDATE_HZ : Nat := 50

/-- clamp_servo_us from common/limits.h: saturate a pulse width into
the hard range 500..2500 microseconds. -/
def clamp_servo_us (value : Nat) : Nat :=
  if value < SERVO_PWM_MIN_US then SERVO_PWM_MIN_US
  else if value > SERVO_PWM_MAX_US then SERVO_PWM_MAX_US
  else value

/-! ### Protocol constants.

Modelled from the spec: the header common/versioning.h is not present under
src/; the magic and version values below are those documented in
common/protocol_posepacket31.h (layout comment) and checked by
tests/test_posepacket.cpp. -/

def SPIDER_MAGIC : Nat := 0xB31A
def SPIDER_VERSION_MAJOR : Nat := 3
def SPIDER_VERSION_MINOR : Nat := 1

/-- Flag bits of PosePacket31 (common/protocol_posepacket31.h). -/
def FLAG_ESTOP : Nat := 1
def FLAG_HOLD : Nat := 2
def FLAG_CLAMP_ENABLE : Nat := 4
def FLAG_INTERP_Q16 : Nat := 8

/-! ### Fault flags (muscle_rtos/safety/fault_flags.h and .c).

The C module keeps one global uint32 word; here the word is threaded
explicitly through the owning state records. -/

def FAULT_PACKET_MAGIC : Nat := 8
def FAULT_PACKET_VERSION : Nat := 16
def FAULT_PACKET_CRC : Nat := 32
def FAULT_HEARTBEAT_TIMEOUT : Nat := 64
def FAULT_ESTOP_ACTIVE : Nat := 512

/-- fault_flags_set: word |= flag. -/
def fault_flags_set (word flag : Nat) : Nat := word ||| flag

/-- fault_flags_clear: word &= ~flag, with the complement taken in 32 bits. -/
def fault_flags_clear (word flag : Nat) : Nat := word &&& (0xFFFFFFFF ^^^ flag)

/-! ### PCA9685 driver (muscle_rtos/drivers/pca9685.c) -/

def PCA9685_CHANNEL_COUNT : Nat := 16

/-- pca9685_set_pwm_us: returns none when the channel is out of range
(the C function returns -1 and performs no bus write); otherwise returns
the saturated pulse width together with the off tick handed to
pca9685_set_pwm_raw, computed as pulse * 4096 / 20000. -/
def pca9685_set_pwm_us (channel pulse_us : Nat) : Option (Nat × Nat) :=
  if PCA9685_CHANNEL_COUNT ≤ channel then none
  else
    let p1 := if pulse_us < SERVO_PWM_MIN_US then SERVO_PWM_MIN_US else pulse_us
    let p2 := if p1 > SERVO_PWM_MAX_US then SERVO_PWM_MAX_US else p1
    some (p2, p2 * 4096 / 20000)

/-- Observable effect of one pca9685_set_pwm_us call: the (channel,
saturated microseconds) pair written to the chip, or nothing when the
channel check fails. -/
def pca9685_write (channel pulse_us : Nat) : List (Nat × Nat) :=
  match pca9685_set_pwm_us channel pulse_us with
  | some (v, _) => [(channel, v)]
  | none => []

/-- pca9685_set_all_us: one pca9685_set_pwm_us call per channel 0..15. -/
def pca9685_set_all_us (pulse_us : Nat) : List (Nat × Nat) :=
  ((List.range PCA9685_CHANNEL_COUNT).map (fun i => pca9685_write i pulse_us)).flatten

/-! ### CRC-16/CCITT-FALSE (common/crc16_ccitt_false.c) -/

/-- One inner-loop round: shift left, conditionally xor the polynomial,
truncated to 16 bits as the C uint16 arithmetic does. -/
def crc16_round (crc : Nat) : Nat :=
  if crc &&& 0x8000 ≠ 0 then ((crc <<< 1) ^^^ 0x1021) &&& 0xFFFF
  else (crc <<< 1) &&& 0xFFFF

def crc16_bits : Nat → Nat → Nat
  | 0, crc => crc
  | n + 1, crc => crc16_bits n (crc16_round crc)

/-- crc16_ccitt_false over a byte list: init 0xFFFF, xor each byte into
the high half, eight polynomial rounds per byte. -/
def crc16_ccitt_false (data : List Nat) : Nat :=
  data.foldl (fun crc b => crc16_bits 8 (crc ^^^ ((b &&& 0xFF) <<< 8))) 0xFFFF

/-! ### PosePacket31 (common/protocol_posepacket31.h) -/

structure PosePacket31 where
  magic : Nat
  ver_major : Nat
  ver_minor : Nat
  seq : Nat
  t_ms : Nat
  flags : Nat
  servo_us : List Nat
  crc16 : Nat
deriving DecidableEq, Repr

/-- Little-endian bytes of a 16-bit field. -/
def le16 (v : Nat) : List Nat := [v % 256, v / 256 % 256]

/-- Little-endian bytes of a 32-bit field. -/
def le32 (v : Nat) : List Nat :=
  [v % 256, v / 256 % 256, v / 65536 % 256, v / 16777216 % 256]

/-- The first 40 bytes of the packed little-endian wire layout of a
packet, exactly the range the consumer computes the CRC over
(sizeof(PosePacket31) - 2 in validate_packet). -/
def posepacket31_bytes40 (p : PosePacket31) : List Nat :=
  le16 p.magic ++ [p.ver_major % 256, p.ver_minor % 256] ++ le32 p.seq
    ++ le32 p.t_ms ++ le16 p.flags ++ (p.servo_us.map le16).flatten

/-! ### Packet validation (app_main_v1.c, validate_packet).

The C function also raises fault bits and a drop counter through globals;
those state updates are applied by the caller model consume_one from the
returned error code, mirroring which bit each branch sets. -/

/-- validate_packet: 0 accept, -1 bad magic, -2 bad version, -3 bad CRC,
-4 stale sequence (only enforced once last_seq is nonzero). -/
def validate_packet (pkt : PosePacket31) (last_seq : Nat) : Int :=
  if pkt.magic ≠ SPIDER_MAGIC then -1
  else if pkt.ver_major ≠ SPIDER_VERSION_MAJOR ∨ pkt.ver_minor ≠ SPIDER_VERSION_MINOR then -2
  else if crc16_ccitt_false (posepacket31_bytes40 pkt) ≠ pkt.crc16 then -3
  else if pkt.seq ≤ last_seq ∧ last_seq ≠ 0 then -4
  else 0

/-- Fault bit set by each validate_packet failure code (code -4 only
bumps the drop counter, no fault bit). -/
def fault_of_rc (rc : Int) : Nat :=
  if rc = -1 then FAULT_PACKET_MAGIC
  else if rc = -2 then FAULT_PACKET_VERSION
  else if rc = -3 then FAULT_PACKET_CRC
  else 0

/-- apply_servo_values: one pca9685_set_pwm_us call per channel 0..12. -/
def apply_servo_values (pkt : PosePacket31) : List (Nat × Nat) :=
  ((List.range SERVO_COUNT_TOTAL).map
    (fun ch => pca9685_write ch (pkt.servo_us.getD ch 0))).flatten

/-! ### Shared-buffer consumer (app_main_v1.c, process_shared_buffer_packets).

State of the consumer globals g_last_seq, g_estop_active and the fault
word; rx/drop counters are omitted (set but never branched on). -/

structure ConsumerState where
  last_seq : Nat
  estop_active : Bool
  faults : Nat
deriving DecidableEq, Repr

def initConsumer : ConsumerState := ⟨0, false, 0⟩

/-- Observable effects of processing one ring slot: whether the packet
was applied to the servos, whether watchdog_feed ran, and the PWM writes
issued. -/
structure ConsumeEffects where
  applied : Bool
  fed : Bool
  writes : List (Nat × Nat)
deriving DecidableEq, Repr

/-- One iteration of the drain loop body in process_shared_buffer_packets:
skip everything while in ESTOP, else validate; on success feed the
watchdog first, then either latch ESTOP (handle_estop: all servos
neutral, fault bit, estop flag) or apply the servo values and record the
sequence number. -/
def consume_one (st : ConsumerState) (pkt : PosePacket31) :
    ConsumerState × ConsumeEffects :=
  if st.estop_active then (st, ⟨false, false, []⟩)
  else
    let rc := validate_packet pkt st.last_seq
    if rc = 0 then
      if pkt.flags &&& FLAG_ESTOP ≠ 0 then
        ({st with estop_active := true,
                  faults := fault_flags_set st.faults FAULT_ESTOP_ACTIVE},
         ⟨false, true, pca9685_set_all_us SERVO_PWM_NEUTRAL_US⟩)
      else
        ({st with last_seq := pkt.seq}, ⟨true, true, apply_servo_values pkt⟩)
    else
      ({st with faults := fault_flags_set st.faults (fault_of_rc rc)},
       ⟨false, false, []⟩)

/-- Drain a list of ring slots in order, collecting the applied packets. -/
def run_consume : ConsumerState → List PosePacket31 → ConsumerState × List PosePacket31
  | st, [] => (st, [])
  | st, pkt :: rest =>
    let (st1, eff) := consume_one st pkt
    let (st2, apps) := run_consume st1 rest
    (st2, (if eff.applied then [pkt] else []) ++ apps)

/-! ### Watchdog (muscle_rtos/safety/watchdog.c).

FreeRTOS ticks are 1 ms (freertos_config.h: configTICK_RATE_HZ = 1000),
so pdMS_TO_TICKS is the identity and times are plain milliseconds. -/

def WATCHDOG_CHECK_PERIOD_MS : Nat := 25

inductive WatchdogState
  | normal
  | timeout
  | hold
  | estop
deriving DecidableEq, Repr

structure Watchdog where
  state : WatchdogState
  last_feed_tick : Nat
  faults : Nat
deriving DecidableEq, Repr

/-- watchdog_feed: stamp the feed time; TIMEOUT or HOLD drops back to
NORMAL and the heartbeat-timeout fault is cleared. -/
def watchdog_feed (w : Watchdog) (now : Nat) : Watchdog :=
  let w1 : Watchdog := {w with last_feed_tick := now}
  if w1.state = .timeout ∨ w1.state = .hold then
    {w1 with state := .normal,
             faults := fault_flags_clear w1.faults FAULT_HEARTBEAT_TIMEOUT}
  else w1

/-- watchdog_signal_estop: latch ESTOP and set the fault bit.  The ESTOP
callback (failsafe_enter_estop) is modelled at the call sites. -/
def watchdog_signal_estop (w : Watchdog) : Watchdog :=
  {w with state := .estop, faults := fault_flags_set w.faults FAULT_ESTOP_ACTIVE}

/-- watchdog_clear_estop: only meaningful in ESTOP; with a feed younger
than the timeout it returns 0 and goes NORMAL, otherwise it returns -1
and stores HOLD. -/
def watchdog_clear_estop (w : Watchdog) (now : Nat) : Watchdog × Int :=
  if w.state ≠ .estop then (w, -1)
  else if now - w.last_feed_tick < HEARTBEAT_TIMEOUT_MS then
    ({w with state := .normal,
             faults := fault_flags_clear w.faults FAULT_ESTOP_ACTIVE}, 0)
  else ({w with state := .hold}, -1)

/-- One iteration of the watchdog task loop body.  The second component
lists the states stored during the iteration, in order: a late check in
NORMAL stores TIMEOUT (fault set, timeout callback) and then, still in
the same iteration, stores HOLD. -/
def watchdog_check (w : Watchdog) (now : Nat) : Watchdog × List WatchdogState :=
  if w.state = .estop then (w, [])
  else
    let elapsed := now - w.last_feed_tick
    if elapsed > HEARTBEAT_TIMEOUT_MS then
      let step1 : Watchdog × List WatchdogState :=
        if w.state = .normal then
          ({w with state := .timeout,
                   faults := fault_flags_set w.faults FAULT_HEARTBEAT_TIMEOUT},
           [.timeout])
        else (w, [])
      if step1.1.state = .timeout then
        ({step1.1 with state := .hold}, step1.2 ++ [.hold])
      else step1
    else (w, [])

/-- Watchdog state after n check iterations at times c0, c0+25, ... -/
def watchdog_checks (w : Watchdog) (c0 : Nat) : Nat → Watchdog
  | 0 => w
  | n + 1 =>
    (watchdog_check (watchdog_checks w c0 n) (c0 + WATCHDOG_CHECK_PERIOD_MS * n)).1

/-! ### Interpolator (muscle_rtos/motion_runtime/interpolator.c) -/

def TICK_PERIOD_MS : Nat := 1000 / MOTION_UPDATE_HZ

inductive InterpMode
  | INTERP_MODE_FLOAT
  | INTERP_MODE_Q16
deriving DecidableEq, Repr

structure InterpState where
  start_us : List Nat
  target_us : List Nat
  duration_ms : Nat
  elapsed_ms : Nat
  mode : InterpMode
  active : Bool
deriving DecidableEq, Repr

/-- interpolator_start: capture start and target, force a zero duration
to 1 ms, reset elapsed, go active. -/
def interpolator_start (current_us target_us : List Nat) (duration_ms : Nat)
    (mode : InterpMode) : InterpState :=
  { start_us := current_us
    target_us := target_us
    duration_ms := if duration_ms > 0 then duration_ms else 1
    elapsed_ms := 0
    mode := mode
    active := true }

/-- Reinterpret the low 32 bits of a natural as a signed int32. -/
def toInt32 (n : Nat) : Int :=
  let m := n % 4294967296
  if m < 2147483648 then (m : Int) else (m : Int) - 4294967296

/-- Wrap an integer into the int32 range (two-complement overflow). -/
def int32wrap (i : Int) : Int := toInt32 (i % 4294967296).toNat

/-- One channel of the Q16.16 path: delta times t_q16, arithmetic shift
right by 16 (floor division), added to start in int32 arithmetic, then
truncated to uint16. -/
def q16_channel (start target t_q16 : Nat) : Nat :=
  let delta : Int := (target : Int) - (start : Int)
  let prod := int32wrap (delta * toInt32 t_q16)
  let interp := int32wrap ((start : Int) + Int.fdiv prod 65536)
  (interp % 65536).toNat

/-- One channel of the float path.  The C code uses 32-bit floats; the
shallow embedding computes the same expression with exact rationals and
truncates the nonnegative result toward zero as the uint16 cast does. -/
def float_channel (start target elapsed duration : Nat) : Nat :=
  let t : ℚ := (elapsed : ℚ) / (duration : ℚ)
  let v : ℚ := (start : ℚ) + ((target : ℚ) - (start : ℚ)) * t
  ⌊v⌋.toNat % 65536

/-- interpolator_tick: inactive returns complete without touching the
output; otherwise advance elapsed by the 20 ms tick, snap to the target
when the duration is reached, else write the interpolated pose. -/
def interpolator_tick (st : InterpState) (out : List Nat) :
    InterpState × List Nat × Bool :=
  if ¬ st.active then (st, out, true)
  else
    let e := st.elapsed_ms + TICK_PERIOD_MS
    if e ≥ st.duration_ms then
      ({st with elapsed_ms := e, active := false}, st.target_us, true)
    else
      let st1 : InterpState := {st with elapsed_ms := e}
      match st.mode with
      | .INTERP_MODE_FLOAT =>
        (st1,
         (List.zip st.start_us st.target_us).map
           (fun p => float_channel p.1 p.2 e st.duration_ms),
         false)
      | .INTERP_MODE_Q16 =>
        let t_q16 := (e <<< 16) % 4294967296 / st.duration_ms
        (st1,
         (List.zip st.start_us st.target_us).map
           (fun p => q16_channel p.1 p.2 t_q16),
         false)

/-- Run n interpolator ticks, threading the output array. -/
def interpolator_run (st : InterpState) (out : List Nat) :
    Nat → InterpState × List Nat
  | 0 => (st, out)
  | n + 1 =>
    let r := interpolator_tick st out
    interpolator_run r.1 r.2.1 n

/-! ### Motion task (muscle_rtos/motion_task.c).

One iteration of the 50 Hz loop, parameterised by the optional packet
taken from the queue and the current tick time (for watchdog feeds).
The second component of the result lists the PWM writes of the
iteration.  The watchdog ESTOP callback is wired, as in app_main_v1.c
and the archived app_main.c, to failsafe_enter_estop, which drives every
channel to neutral.  The write-only global s_last_packet_tick is
omitted. -/

inductive MotionState
  | IDLE
  | MOVING
  | HOLD
  | ESTOP
deriving DecidableEq, Repr

structure MotionTaskState where
  current_us : List Nat
  target_us : List Nat
  mstate : MotionState
  interp : InterpState
  wdog : Watchdog
deriving DecidableEq, Repr

/-- Startup state of the motion task: every channel neutral, idle, the
interpolator globals zero-initialised and inactive. -/
def initMotion : MotionTaskState :=
  { current_us := List.replicate SERVO_COUNT_TOTAL SERVO_PWM_NEUTRAL_US
    target_us := List.replicate SERVO_COUNT_TOTAL SERVO_PWM_NEUTRAL_US
    mstate := .IDLE
    interp := ⟨[], [], 0, 0, .INTERP_MODE_FLOAT, false⟩
    wdog := ⟨.normal, 0, 0⟩ }

/-- Local-state sync with the watchdog: watchdog ESTOP forces motion
ESTOP; watchdog TIMEOUT or HOLD forces motion HOLD unless already in
ESTOP. -/
def motion_sync_wdog (ms : MotionState) (ws : WatchdogState) : MotionState :=
  if ws = .estop ∧ ms ≠ .ESTOP then .ESTOP
  else if (ws = .timeout ∨ ws = .hold) ∧ ms ≠ .ESTOP then .HOLD
  else ms

/-- The per-tick servo refresh: one pca9685_set_pwm_us call per channel
0..12 with the current pose, issued every iteration that reaches the end
of the loop body. -/
def motion_write_all (cur : List Nat) : List (Nat × Nat) :=
  ((List.range SERVO_COUNT_TOTAL).map
    (fun i => pca9685_write i (cur.getD i 0))).flatten

/-- Tail of the loop body after the queue receive: watchdog sync, state
machine switch (MOVING ticks the interpolator into current_us), then the
unconditional servo refresh. -/
def motion_rest (st : MotionTaskState) : MotionTaskState × List (Nat × Nat) :=
  let ms1 := motion_sync_wdog st.mstate st.wdog.state
  let st2 : MotionTaskState :=
    if ms1 = .MOVING then
      let r := interpolator_tick st.interp st.current_us
      {st with interp := r.1, current_us := r.2.1,
               mstate := if r.2.2 then .IDLE else ms1}
    else {st with mstate := ms1}
  (st2, motion_write_all st2.current_us)

/-- One iteration of motion_task_entry: on a received packet feed the
watchdog, then ESTOP flag latches ESTOP (signalling the watchdog, whose
callback failsafe_enter_estop writes neutral to all 16 channels) and
continues, HOLD flag continues, otherwise clamp the targets, start the
interpolator and go MOVING; every non-continued path then runs
motion_rest. -/
def motion_iteration (st : MotionTaskState) (pktQ : Option PosePacket31)
    (now : Nat) : MotionTaskState × List (Nat × Nat) :=
  match pktQ with
  | some pkt =>
    let w1 := watchdog_feed st.wdog now
    if pkt.flags &&& FLAG_ESTOP ≠ 0 then
      ({st with mstate := .ESTOP, wdog := watchdog_signal_estop w1},
       pca9685_set_all_us SERVO_PWM_NEUTRAL_US)
    else if pkt.flags &&& FLAG_HOLD ≠ 0 then
      ({st with mstate := .HOLD, wdog := w1}, [])
    else
      let tgt := (List.range SERVO_COUNT_TOTAL).map
        (fun i => clamp_servo_us (pkt.servo_us.getD i 0))
      let ist := interpolator_start st.current_us tgt pkt.t_ms
        (if pkt.flags &&& FLAG_INTERP_Q16 ≠ 0 then .INTERP_MODE_Q16
         else .INTERP_MODE_FLOAT)
      motion_rest {st with wdog := w1, target_us := tgt, interp := ist,
                           mstate := .MOVING}
  | none => motion_rest st

/-! ### Shared ring, producer side (brain_linux/src/shared_memory.cpp and
common/shared_motion_buffer.h).  Both indices are monotonic uint32
counters; the slot array has 8 entries of one packet each. -/

def PACKET_RING_SIZE : Nat := 8
def SHARED_FLAG_OVERFLOW : Nat := 8
def U32_MOD : Nat := 4294967296

/-- uint32 subtraction a - b for a, b < 2^32. -/
def u32sub (a b : Nat) : Nat := (a + U32_MOD - b) % U32_MOD

structure RingState where
  write_idx : Nat
  read_idx : Nat
  flags : Nat
  slots : List PosePacket31
deriving DecidableEq, Repr

/-- The all-zero packet, the slot contents after SharedMemory map zeroes
the region. -/
def zeroPacket : PosePacket31 :=
  ⟨0, 0, 0, 0, 0, 0, List.replicate SERVO_COUNT_TOTAL 0, 0⟩

/-- Header and slots right after SharedMemory map: everything zeroed. -/
def initRing : RingState :=
  ⟨0, 0, 0, List.replicate PACKET_RING_SIZE zeroPacket⟩

/-- shared_buffer_is_full: write_idx - read_idx >= 8 in uint32 math. -/
def shared_buffer_is_full (r : RingState) : Bool :=
  PACKET_RING_SIZE ≤ u32sub r.write_idx r.read_idx

/-- shared_buffer_is_empty: write_idx == read_idx. -/
def shared_buffer_is_empty (r : RingState) : Bool :=
  r.write_idx == r.read_idx

/-- SharedMemory writePacket: fail (false) when 8 or more slots are
outstanding, otherwise copy the packet into slot write_idx mod 8 and
increment write_idx.  No flag bit is touched on either path. -/
def writePacket (r : RingState) (pkt : PosePacket31) : RingState × Bool :=
  if PACKET_RING_SIZE ≤ u32sub r.write_idx r.read_idx then (r, false)
  else
    ({r with slots := r.slots.set (r.write_idx % PACKET_RING_SIZE) pkt,
             write_idx := (r.write_idx + 1) % U32_MOD}, true)

/-- n consecutive writePacket calls with no drain, collecting each
result. -/
def writeRepeat (r : RingState) (pkt : PosePacket31) : Nat → RingState × List Bool
  | 0 => (r, [])
  | n + 1 =>
    let (r1, ok) := writePacket r pkt
    let (r2, rest) := writeRepeat r1 pkt n
    (r2, ok :: rest)

/-! ### Doorbell command identifiers.

The producer side (brain_linux/src/mailbox.h) and the consumer side
(muscle_rtos/app_main_v1.c) each define their own constants. -/

def BRAIN_CMD_MOTION_PACKET : Nat := 0x20
def BRAIN_CMD_MOTION_ACK : Nat := 0x21
def BRAIN_CMD_HEARTBEAT : Nat := 0x22
def BRAIN_CMD_ESTOP : Nat := 0x23

def MUSCLE_CMD_HEARTBEAT : Nat := 0x10
def MUSCLE_CMD_MOTION_PACKET : Nat := 0x20
def MUSCLE_CMD_ESTOP : Nat := 0x30

inductive MailboxAction
  | heartbeat
  | motionPackets
  | estop
  | unknown
deriving DecidableEq, Repr

/-- Dispatch of mailbox_cmd_handler in app_main_v1.c on the incoming
command id (the switch statement; the default branch only logs). -/
def mailbox_cmd_dispatch (cmd_id : Nat) : MailboxAction :=
  if cmd_id = MUSCLE_CMD_HEARTBEAT then .heartbeat
  else if cmd_id = MUSCLE_CMD_MOTION_PACKET then .motionPackets
  else if cmd_id = MUSCLE_CMD_ESTOP then .estop
  else .unknown

/-! ### Concrete packets used by witnesses and counterexamples.

The CRC field is filled with the CRC the consumer recomputes, so the
packets pass validate_packet. -/

/-- Fields of a valid ESTOP-flagged packet, CRC not yet final. -/
def estopPktBase : PosePacket31 :=
  { magic := SPIDER_MAGIC, ver_major := SPIDER_VERSION_MAJOR
    ver_minor := SPIDER_VERSION_MINOR, seq := 1, t_ms := 0
    flags := FLAG_ESTOP ||| FLAG_CLAMP_ENABLE
    servo_us := List.replicate SERVO_COUNT_TOTAL SERVO_PWM_NEUTRAL_US
    crc16 := 0 }

/-- A valid ESTOP-flagged packet (CRC over the first 40 bytes is
correct; those bytes do not include the CRC field itself). -/
def estopPkt : PosePacket31 :=
  {estopPktBase with crc16 := crc16_ccitt_false (posepacket31_bytes40 estopPktBase)}

/-- Fields of a valid packet with sequence number 0, CRC not yet final. -/
def seqZeroPktBase : PosePacket31 :=
  { magic := SPIDER_MAGIC, ver_major := SPIDER_VERSION_MAJOR
    ver_minor := SPIDER_VERSION_MINOR, seq := 0, t_ms := 100
    flags := FLAG_CLAMP_ENABLE
    servo_us := List.replicate SERVO_COUNT_TOTAL SERVO_PWM_NEUTRAL_US
    crc16 := 0 }

/-- A valid packet whose sequence number is 0. -/
def seqZeroPkt : PosePacket31 :=
  {seqZeroPktBase with crc16 := crc16_ccitt_false (posepacket31_bytes40 seqZeroPktBase)}

/-- A motion packet moving every channel to 2000 microseconds in 20 ms
(one tick).  The motion task queue path does not recheck the CRC, but
the field is valid anyway. -/
def movePktBase : PosePacket31 :=
  { magic := SPIDER_MAGIC, ver_major := SPIDER_VERSION_MAJOR
    ver_minor := SPIDER_VERSION_MINOR, seq := 1, t_ms := 20
    flags := FLAG_CLAMP_ENABLE
    servo_us := List.replicate SERVO_COUNT_TOTAL 2000
    crc16 := 0 }

def movePkt : PosePacket31 :=
  {movePktBase with crc16 := crc16_ccitt_false (posepacket31_bytes40 movePktBase)}

/-! ### A concrete three-iteration motion-task scenario: move every
channel to 2000, accept an ESTOP packet, then run the following idle
tick. -/

def motionRunMove : MotionTaskState × List (Nat × Nat) :=
  motion_iteration initMotion (some movePkt) 0

def motionRunEstop : MotionTaskState × List (Nat × Nat) :=
  motion_iteration motionRunMove.1 (some estopPkt) 20

def motionRunNext : MotionTaskState × List (Nat × Nat) :=
  motion_iteration motionRunEstop.1 none 40

/-! ## Helper lemmas -/

/-- Every successful pca9685_set_pwm_us call saturates its pulse into
the hard range before converting to ticks. -/
theorem pca9685_set_pwm_us_saturates {ch us v t : Nat}
    (h : pca9685_set_pwm_us ch us = some (v, t)) :
    SERVO_PWM_MIN_US ≤ v ∧ v ≤ SERVO_PWM_MAX_US := by
  simp only [pca9685_set_pwm_us] at h
  split at h
  · exact absurd h (by simp)
  · simp only [Option.some.injEq, Prod.mk.injEq] at h
    obtain ⟨hv, -⟩ := h
    subst hv
    unfold SERVO_PWM_MIN_US SERVO_PWM_MAX_US
    split
    · split <;> omega
    · split <;> omega

/-- Every pair recorded by pca9685_write carries a saturated pulse. -/
theorem pca9685_write_bounds {ch us : Nat} {p : Nat × Nat}
    (hp : p ∈ pca9685_write ch us) :
    SERVO_PWM_MIN_US ≤ p.2 ∧ p.2 ≤ SERVO_PWM_MAX_US := by
  unfold pca9685_write at hp
  rcases hset : pca9685_set_pwm_us ch us with - | ⟨v, t⟩ <;> rw [hset] at hp
  · simp at hp
  · simp only [List.mem_singleton] at hp
    subst hp
    exact pca9685_set_pwm_us_saturates hset

/-- Bounds for the all-channel neutral write. -/
theorem pca9685_set_all_us_bounds {us : Nat} {p : Nat × Nat}
    (hp : p ∈ pca9685_set_all_us us) :
    SERVO_PWM_MIN_US ≤ p.2 ∧ p.2 ≤ SERVO_PWM_MAX_US := by
  simp only [pca9685_set_all_us, List.mem_flatten, List.mem_map] at hp
  obtain ⟨l, ⟨i, -, rfl⟩, hpl⟩ := hp
  exact pca9685_write_bounds hpl

/-- Bounds for the per-packet servo application of app_main_v1.c. -/
theorem apply_servo_values_bounds {pkt : PosePacket31} {p : Nat × Nat}
    (hp : p ∈ apply_servo_values pkt) :
    SERVO_PWM_MIN_US ≤ p.2 ∧ p.2 ≤ SERVO_PWM_MAX_US := by
  simp only [apply_servo_values, List.mem_flatten, List.mem_map] at hp
  obtain ⟨l, ⟨i, -, rfl⟩, hpl⟩ := hp
  exact pca9685_write_bounds hpl

/-- Bounds for the per-tick servo refresh of motion_task.c. -/
theorem motion_write_all_bounds {cur : List Nat} {p : Nat × Nat}
    (hp : p ∈ motion_write_all cur) :
    SERVO_PWM_MIN_US ≤ p.2 ∧ p.2 ≤ SERVO_PWM_MAX_US := by
  simp only [motion_write_all, List.mem_flatten, List.mem_map] at hp
  obtain ⟨l, ⟨i, -, rfl⟩, hpl⟩ := hp
  exact pca9685_write_bounds hpl

/-- The tail of the motion loop only ever writes through the per-tick
refresh. -/
theorem motion_rest_writes (st : MotionTaskState) :
    (motion_rest st).2 = motion_write_all (motion_rest st).1.current_us := rfl

/-- Feeding always stamps the feed time. -/
theorem watchdog_feed_last (w : Watchdog) (now : Nat) :
    (watchdog_feed w now).last_feed_tick = now := by
  unfold watchdog_feed
  dsimp only
  split <;> rfl

/-- Signalling ESTOP does not move the feed stamp. -/
theorem watchdog_signal_estop_last (w : Watchdog) :
    (watchdog_signal_estop w).last_feed_tick = w.last_feed_tick := rfl

/-- A single push never touches the header flags, on either path. -/
theorem writePacket_flags (r : RingState) (pkt : PosePacket31) :
    (writePacket r pkt).1.flags = r.flags := by
  unfold writePacket
  split <;> rfl

/-- Any number of pushes leaves the header flags untouched: in
particular no push ever sets OVERFLOW. -/
theorem writeRepeat_flags (n : Nat) : ∀ (r : RingState) (pkt : PosePacket31),
    (writeRepeat r pkt n).1.flags = r.flags := by
  induction n with
  | zero => intro r pkt; rfl
  | succ m ih =>
    intro r pkt
    have h1 : (writeRepeat r pkt (m + 1)).1
        = (writeRepeat (writePacket r pkt).1 pkt m).1 := rfl
    rw [h1, ih, writePacket_flags]

/-- Splitting a CRC computation at a list append. -/
theorem crc_chunk (l1 l2 : List Nat) :
    crc16_ccitt_false (l1 ++ l2)
      = List.foldl (fun crc b => crc16_bits 8 (crc ^^^ ((b &&& 0xFF) <<< 8)))
          (crc16_ccitt_false l1) l2 := by
  unfold crc16_ccitt_false
  rw [List.foldl_append]

/-- CRC of the 40-byte wire image of seqZeroPktBase, evaluated in four
chunks to keep the reduction shallow. -/
theorem crcSeqZero : crc16_ccitt_false (posepacket31_bytes40 seqZeroPktBase) = 61053 := by
  have hb : posepacket31_bytes40 seqZeroPktBase
      = (([26, 179, 3, 1, 0, 0, 0, 0, 100, 0]
          ++ [0, 0, 4, 0, 220, 5, 220, 5, 220, 5])
          ++ [220, 5, 220, 5, 220, 5, 220, 5, 220, 5])
          ++ [220, 5, 220, 5, 220, 5, 220, 5, 220, 5] := by decide
  rw [hb, crc_chunk, crc_chunk, crc_chunk]
  rw [show crc16_ccitt_false [26, 179, 3, 1, 0, 0, 0, 0, 100, 0] = 12384 from by decide]
  rw [show List.foldl (fun crc b => crc16_bits 8 (crc ^^^ ((b &&& 0xFF) <<< 8)))
        12384 [0, 0, 4, 0, 220, 5, 220, 5, 220, 5] = 56061 from by decide]
  rw [show List.foldl (fun crc b => crc16_bits 8 (crc ^^^ ((b &&& 0xFF) <<< 8)))
        56061 [220, 5, 220, 5, 220, 5, 220, 5, 220, 5] = 37106 from by decide]
  decide

/-- CRC of the 40-byte wire image of estopPktBase. -/
theorem crcEstop : crc16_ccitt_false (posepacket31_bytes40 estopPktBase) = 11341 := by
  have hb : posepacket31_bytes40 estopPktBase
      = (([26, 179, 3, 1, 1, 0, 0, 0, 0, 0]
          ++ [0, 0, 5, 0, 220, 5, 220, 5, 220, 5])
          ++ [220, 5, 220, 5, 220, 5, 220, 5, 220, 5])
          ++ [220, 5, 220, 5, 220, 5, 220, 5, 220, 5] := by decide
  rw [hb, crc_chunk, crc_chunk, crc_chunk]
  rw [show crc16_ccitt_false [26, 179, 3, 1, 1, 0, 0, 0, 0, 0] = 45614 from by decide]
  rw [show List.foldl (fun crc b => crc16_bits 8 (crc ^^^ ((b &&& 0xFF) <<< 8)))
        45614 [0, 0, 5, 0, 220, 5, 220, 5, 220, 5] = 35646 from by decide]
  rw [show List.foldl (fun crc b => crc16_bits 8 (crc ^^^ ((b &&& 0xFF) <<< 8)))
        35646 [220, 5, 220, 5, 220, 5, 220, 5, 220, 5] = 54292 from by decide]
  decide

/-- The CRC stored in seqZeroPkt matches the recomputation the consumer
performs over its first 40 bytes. -/
theorem crc_seqZeroPkt_ok :
    crc16_ccitt_false (posepacket31_bytes40 seqZeroPkt) = seqZeroPkt.crc16 := by
  have h1 : posepacket31_bytes40 seqZeroPkt = posepacket31_bytes40 seqZeroPktBase := by
    decide
  rw [h1]
  unfold seqZeroPkt
  dsimp only

/-- The CRC stored in estopPkt matches the recomputation the consumer
performs over its first 40 bytes. -/
theorem crc_estopPkt_ok :
    crc16_ccitt_false (posepacket31_bytes40 estopPkt) = estopPkt.crc16 := by
  have h1 : posepacket31_bytes40 estopPkt = posepacket31_bytes40 estopPktBase := by
    decide
  rw [h1]
  unfold estopPkt
  dsimp only

/-- The uninitialized consumer accepts seqZeroPkt. -/
theorem validate_seqZeroPkt : validate_packet seqZeroPkt 0 = 0 := by
  unfold validate_packet
  rw [if_neg (by decide), if_neg (by decide),
      if_neg (not_not_intro crc_seqZeroPkt_ok), if_neg (by decide)]

/-- The uninitialized consumer accepts estopPkt. -/
theorem validate_estopPkt : validate_packet estopPkt 0 = 0 := by
  unfold validate_packet
  rw [if_neg (by decide), if_neg (by decide),
      if_neg (not_not_intro crc_estopPkt_ok), if_neg (by decide)]

/-- Evaluated consumer step on seqZeroPkt: applied, watchdog fed, and
the recorded last_seq stays 0. -/
theorem consume_one_seqZeroPkt :
    consume_one initConsumer seqZeroPkt
      = (initConsumer, ⟨true, true, apply_servo_values seqZeroPkt⟩) := by
  unfold consume_one
  dsimp only
  rw [if_neg (by decide), show initConsumer.last_seq = 0 from rfl,
      if_pos validate_seqZeroPkt, if_neg (by decide)]
  rfl

/-- Evaluated consumer step on estopPkt: the watchdog is fed and ESTOP
latches. -/
theorem consume_one_estopPkt :
    consume_one initConsumer estopPkt
      = ({initConsumer with
            estop_active := true
            faults := fault_flags_set initConsumer.faults FAULT_ESTOP_ACTIVE},
         ⟨false, true, pca9685_set_all_us SERVO_PWM_NEUTRAL_US⟩) := by
  unfold consume_one
  dsimp only
  rw [if_neg (by decide), show initConsumer.last_seq = 0 from rfl,
      if_pos validate_estopPkt, if_pos (by decide)]

/-! ## Claim theorems -/

/-- C1.  Every PWM write emitted by a motion-task iteration, and every
write emitted by the shared-buffer consumer, carries a pulse width in
[500, 2500] microseconds, for every state and every packet content: the
sink saturates unconditionally before converting to ticks. -/
theorem pwm_every_write_saturated (st : MotionTaskState)
    (pktQ : Option PosePacket31) (now : Nat) (stc : ConsumerState)
    (pkt2 : PosePacket31) :
    (∀ p ∈ (motion_iteration st pktQ now).2,
      SERVO_PWM_MIN_US ≤ p.2 ∧ p.2 ≤ SERVO_PWM_MAX_US)
    ∧ (∀ p ∈ (consume_one stc pkt2).2.writes,
      SERVO_PWM_MIN_US ≤ p.2 ∧ p.2 ≤ SERVO_PWM_MAX_US) := by
  constructor
  · intro p hp
    match pktQ with
    | none =>
      rw [motion_iteration, motion_rest_writes] at hp
      exact motion_write_all_bounds hp
    | some pkt =>
      rw [motion_iteration] at hp
      by_cases hf : pkt.flags &&& FLAG_ESTOP ≠ 0
      · rw [if_pos hf] at hp
        exact pca9685_set_all_us_bounds hp
      · rw [if_neg hf] at hp
        by_cases hh : pkt.flags &&& FLAG_HOLD ≠ 0
        · rw [if_pos hh] at hp
          simp at hp
        · rw [if_neg hh, motion_rest_writes] at hp
          exact motion_write_all_bounds hp
  · intro p hp
    unfold consume_one at hp
    dsimp only at hp
    by_cases he : stc.estop_active = true
    · rw [if_pos he] at hp
      simp at hp
    · rw [if_neg he] at hp
      by_cases hv : validate_packet pkt2 stc.last_seq = 0
      · rw [if_pos hv] at hp
        by_cases hf2 : pkt2.flags &&& FLAG_ESTOP ≠ 0
        · rw [if_pos hf2] at hp
          exact pca9685_set_all_us_bounds hp
        · rw [if_neg hf2] at hp
          exact apply_servo_values_bounds hp
      · rw [if_neg hv] at hp
        simp at hp

set_option maxRecDepth 8192 in
/-- Witness for C1: the first write of a concrete motion iteration. -/
theorem pwm_every_write_saturated_w :
    (0, 2000) ∈ (motion_iteration initMotion (some movePkt) 0).2
    ∧ (SERVO_PWM_MIN_US ≤ 2000 ∧ 2000 ≤ SERVO_PWM_MAX_US) :=
  ⟨by decide,
   (pwm_every_write_saturated initMotion (some movePkt) 0 initConsumer
     seqZeroPkt).1 (0, 2000) (by decide)⟩

/-- C2.  Accepting an ESTOP packet latches the ESTOP state and the
failsafe writes every channel to 1500 during that iteration, but the
code never loads the safe pose into s_current_us, so the very next
motion tick rewrites every channel with the pre-ESTOP pose (2000 here),
overwriting the safe pose: the claimed all-channels-1500 output on the
next tick does not occur. -/
theorem estop_safe_pose_overwritten_next_tick :
    motionRunEstop.1.mstate = MotionState.ESTOP
    ∧ motionRunEstop.2 = pca9685_set_all_us SERVO_PWM_NEUTRAL_US
    ∧ motionRunNext.2 = (List.range SERVO_COUNT_TOTAL).map (fun i => (i, 2000))
    ∧ (0, SERVO_PWM_NEUTRAL_US) ∉ motionRunNext.2 := by
  refine ⟨by decide, by decide, by decide, by decide⟩

/-- C3 counterexample.  On the very first validated ESTOP-flagged
packet, the consumer invokes watchdog_feed (fed = true), refuting the
claim that the feed is not performed on the ESTOP path. -/
theorem estop_packet_fed_ce :
    (consume_one initConsumer estopPkt).2.fed = true
    ∧ (consume_one initConsumer estopPkt).1.estop_active = true := by
  rw [consume_one_estopPkt]
  exact ⟨rfl, rfl⟩

/-- C3 amended.  A validated ESTOP-flagged packet makes the runtime
enter the ESTOP state, and watchdog_feed IS invoked for that packet: in
both app_main_v1.c and motion_task.c the feed precedes the flag check. -/
theorem estop_packet_enters_estop_and_feeds (st : ConsumerState)
    (pkt : PosePacket31) (mst : MotionTaskState) (now : Nat)
    (h1 : st.estop_active = false)
    (h2 : validate_packet pkt st.last_seq = 0)
    (h3 : pkt.flags &&& FLAG_ESTOP ≠ 0) :
    (consume_one st pkt).1.estop_active = true
    ∧ (consume_one st pkt).2.fed = true
    ∧ (motion_iteration mst (some pkt) now).1.wdog.last_feed_tick = now
    ∧ (motion_iteration mst (some pkt) now).1.mstate = MotionState.ESTOP := by
  have he : ¬ (st.estop_active = true) := by rw [h1]; simp
  have hc : consume_one st pkt
      = ({st with
            estop_active := true
            faults := fault_flags_set st.faults FAULT_ESTOP_ACTIVE},
         ⟨false, true, pca9685_set_all_us SERVO_PWM_NEUTRAL_US⟩) := by
    unfold consume_one
    dsimp only
    rw [if_neg he, if_pos h2, if_pos h3]
  refine ⟨by rw [hc], by rw [hc], ?_, ?_⟩
  · rw [motion_iteration, if_pos h3]
    dsimp only
    rw [watchdog_signal_estop_last, watchdog_feed_last]
  · rw [motion_iteration, if_pos h3]

/-- Witness for C3 amended at the concrete ESTOP packet. -/
theorem estop_packet_enters_estop_and_feeds_w :
    (consume_one initConsumer estopPkt).1.estop_active = true
    ∧ (consume_one initConsumer estopPkt).2.fed = true
    ∧ (motion_iteration initMotion (some estopPkt) 5).1.wdog.last_feed_tick = 5
    ∧ (motion_iteration initMotion (some estopPkt) 5).1.mstate = MotionState.ESTOP :=
  estop_packet_enters_estop_and_feeds initConsumer estopPkt initMotion 5 rfl
    validate_estopPkt (by decide)

/-- C4 counterexample.  Nine pushes into the freshly mapped ring: the
first 8 succeed and the 9th fails, but no OVERFLOW bit appears in the
header flags (no code ever sets SHARED_FLAG_OVERFLOW). -/
theorem ring_ninth_push_no_overflow_ce :
    (writeRepeat initRing zeroPacket 9).2 = List.replicate 8 true ++ [false]
    ∧ (writeRepeat initRing zeroPacket 9).1.flags &&& SHARED_FLAG_OVERFLOW = 0 := by
  decide

/-- C4 amended.  From the empty ring exactly 8 consecutive pushes
succeed and the 9th fails, with the header flags untouched (OVERFLOW is
never set); fullness is write_idx - read_idx >= 8 in uint32 arithmetic,
which under the at-most-8-outstanding invariant is the same as = 8, and
emptiness is write_idx = read_idx. -/
theorem ring_pushes_and_fullness (pkt : PosePacket31) (r : RingState)
    (h8 : u32sub r.write_idx r.read_idx ≤ PACKET_RING_SIZE) :
    (writeRepeat initRing zeroPacket 9).2 = List.replicate 8 true ++ [false]
    ∧ (writeRepeat initRing pkt 9).1.flags = initRing.flags
    ∧ (shared_buffer_is_full r = true
        ↔ u32sub r.write_idx r.read_idx = PACKET_RING_SIZE)
    ∧ (shared_buffer_is_empty r = true ↔ r.write_idx = r.read_idx) := by
  refine ⟨by decide, writeRepeat_flags 9 initRing pkt, ?_, ?_⟩
  · unfold shared_buffer_is_full PACKET_RING_SIZE at *
    simp only [decide_eq_true_eq]
    omega
  · unfold shared_buffer_is_empty
    simp only [beq_iff_eq]

/-- Witness for C4 amended at the freshly mapped ring. -/
theorem ring_pushes_and_fullness_w :
    (writeRepeat initRing zeroPacket 9).2 = List.replicate 8 true ++ [false]
    ∧ (writeRepeat initRing zeroPacket 9).1.flags = initRing.flags
    ∧ (shared_buffer_is_full initRing = true
        ↔ u32sub initRing.write_idx initRing.read_idx = PACKET_RING_SIZE)
    ∧ (shared_buffer_is_empty initRing = true
        ↔ initRing.write_idx = initRing.read_idx) :=
  ring_pushes_and_fullness zeroPacket initRing (by decide)

/-- C5 counterexample.  Two identical valid packets with sequence
number 0 are both applied in a row (last_seq stays 0, so the staleness
check stays disabled), refuting strict monotonicity of applied
sequence numbers. -/
theorem applied_seq_not_strictly_increasing_ce :
    (run_consume initConsumer [seqZeroPkt, seqZeroPkt]).2.map PosePacket31.seq
      = [0, 0]
    ∧ ¬ List.Chain' (fun a b => a < b)
        ((run_consume initConsumer [seqZeroPkt, seqZeroPkt]).2.map
          PosePacket31.seq) := by
  have hr : run_consume initConsumer [seqZeroPkt, seqZeroPkt]
      = (initConsumer, [seqZeroPkt, seqZeroPkt]) := by
    simp only [run_consume, consume_one_seqZeroPkt]
    simp
  rw [hr]
  refine ⟨by decide, ?_⟩
  show ¬ List.Chain' (fun a b => a < b)
    (List.map PosePacket31.seq [seqZeroPkt, seqZeroPkt])
  rw [show List.map PosePacket31.seq [seqZeroPkt, seqZeroPkt] = [0, 0] from by
    decide]
  simp [List.chain'_cons]

/-- A packet the consumer accepts against a nonzero last_seq has a
strictly larger sequence number. -/
theorem validate_ok_seq_gt {pkt : PosePacket31} {last : Nat}
    (h : validate_packet pkt last = 0) (hl : last ≠ 0) : last < pkt.seq := by
  unfold validate_packet at h
  split at h
  · exact absurd h (by decide)
  · split at h
    · exact absurd h (by decide)
    · split at h
      · exact absurd h (by decide)
      · split at h
        · exact absurd h (by decide)
        · omega

/-- An applied consume step records the packet sequence and presupposes
acceptance. -/
theorem consume_one_applied {st : ConsumerState} {pkt : PosePacket31}
    (h : (consume_one st pkt).2.applied = true) :
    (consume_one st pkt).1.last_seq = pkt.seq
    ∧ validate_packet pkt st.last_seq = 0 := by
  unfold consume_one at h ⊢
  dsimp only at h ⊢
  by_cases he : st.estop_active = true
  · rw [if_pos he] at h
    simp at h
  · rw [if_neg he] at h ⊢
    by_cases hv : validate_packet pkt st.last_seq = 0
    · rw [if_pos hv] at h ⊢
      by_cases hf : pkt.flags &&& FLAG_ESTOP ≠ 0
      · rw [if_pos hf] at h
        simp at h
      · rw [if_neg hf]
        exact ⟨rfl, hv⟩
    · rw [if_neg hv] at h
      simp at h

/-- A consume step that applies nothing leaves last_seq unchanged. -/
theorem consume_one_not_applied {st : ConsumerState} {pkt : PosePacket31}
    (h : (consume_one st pkt).2.applied = false) :
    (consume_one st pkt).1.last_seq = st.last_seq := by
  unfold consume_one at h ⊢
  dsimp only at h ⊢
  by_cases he : st.estop_active = true
  · rw [if_pos he]
  · rw [if_neg he] at h ⊢
    by_cases hv : validate_packet pkt st.last_seq = 0
    · rw [if_pos hv] at h ⊢
      by_cases hf : pkt.flags &&& FLAG_ESTOP ≠ 0
      · rw [if_pos hf]
      · rw [if_neg hf] at h
        simp at h
    · rw [if_neg hv]

/-- Draining packets from any consumer state yields applied sequence
numbers that chain strictly upward from the entry last_seq, except after
a zero. -/
theorem run_consume_chain (pkts : List PosePacket31) : ∀ st : ConsumerState,
    List.Chain' (fun a b => a ≠ 0 → a < b)
      (st.last_seq :: (run_consume st pkts).2.map PosePacket31.seq) := by
  induction pkts with
  | nil =>
    intro st
    simp [run_consume]
  | cons pkt rest ih =>
    intro st
    have hrc : run_consume st (pkt :: rest)
        = ((run_consume (consume_one st pkt).1 rest).1,
           (if (consume_one st pkt).2.applied then [pkt] else [])
             ++ (run_consume (consume_one st pkt).1 rest).2) := rfl
    rw [hrc]
    cases happ : (consume_one st pkt).2.applied with
    | false =>
      have hl := consume_one_not_applied happ
      simp only [happ, Bool.false_eq_true, if_false, ite_false, List.nil_append]
      have := ih (consume_one st pkt).1
      rw [hl] at this
      exact this
    | true =>
      obtain ⟨hlast, hv⟩ := consume_one_applied happ
      simp only [happ, if_true, ite_true, List.cons_append, List.nil_append,
        List.map_cons]
      rw [List.chain'_cons]
      constructor
      · intro hne
        exact validate_ok_seq_gt hv hne
      · have := ih (consume_one st pkt).1
        rw [hlast] at this
        exact this

/-- C5 amended.  For consecutive applied packets, strict sequence
monotonicity holds whenever the earlier packet has a nonzero sequence
number; a packet applied with sequence 0 leaves the staleness check
disabled, so equal or lower sequence numbers may follow it. -/
theorem applied_seqs_strictly_increasing_after_nonzero
    (pkts : List PosePacket31) :
    List.Chain' (fun a b => a ≠ 0 → a < b)
      ((run_consume initConsumer pkts).2.map PosePacket31.seq) :=
  (run_consume_chain pkts initConsumer).tail

/-- C8.  The doorbell command identifiers are NOT shared: the producer
(brain_linux/src/mailbox.h) sends HEARTBEAT as 0x22 and ESTOP as 0x23,
while the consumer switch (app_main_v1.c) recognises 0x10 as heartbeat
and 0x30 as ESTOP, so a heartbeat notify from the GP side falls into the
unknown-command branch and never feeds the watchdog. -/
theorem doorbell_heartbeat_mismatch :
    mailbox_cmd_dispatch BRAIN_CMD_HEARTBEAT = MailboxAction.unknown
    ∧ mailbox_cmd_dispatch BRAIN_CMD_ESTOP = MailboxAction.unknown
    ∧ MUSCLE_CMD_HEARTBEAT = 0x10
    ∧ BRAIN_CMD_HEARTBEAT = 0x22
    ∧ BRAIN_CMD_MOTION_ACK = 0x21
    ∧ BRAIN_CMD_ESTOP = 0x23
    ∧ MUSCLE_CMD_ESTOP = 0x30 := by
  decide

/-- C9.  A clear attempt in ESTOP with a stale feed (250 ms or older)
fails with -1 and stores HOLD; from HOLD one feed returns the state to
NORMAL and clears the heartbeat-timeout fault, so the ESTOP latch does
not survive a failed clear followed by one heartbeat. -/
theorem failed_clear_estop_then_feed (w : Watchdog) (now t2 : Nat)
    (hs : w.state = WatchdogState.estop)
    (hstale : HEARTBEAT_TIMEOUT_MS ≤ now - w.last_feed_tick) :
    (watchdog_clear_estop w now).2 = -1
    ∧ (watchdog_clear_estop w now).1.state = WatchdogState.hold
    ∧ (watchdog_feed (watchdog_clear_estop w now).1 t2).state = WatchdogState.normal
    ∧ (watchdog_feed (watchdog_clear_estop w now).1 t2).faults
        &&& FAULT_HEARTBEAT_TIMEOUT = 0 := by
  have h1 : ¬ (now - w.last_feed_tick < HEARTBEAT_TIMEOUT_MS) := by omega
  have hcc : watchdog_clear_estop w now = ({w with state := .hold}, -1) := by
    unfold watchdog_clear_estop
    rw [if_neg (by simp [hs]), if_neg h1]
  have hand : ∀ x : Nat,
      fault_flags_clear x FAULT_HEARTBEAT_TIMEOUT &&& FAULT_HEARTBEAT_TIMEOUT = 0 := by
    intro x
    unfold fault_flags_clear FAULT_HEARTBEAT_TIMEOUT
    rw [Nat.and_assoc, show (0xFFFFFFFF ^^^ 64) &&& 64 = 0 from by decide,
        Nat.and_zero]
  rw [hcc]
  refine ⟨rfl, rfl, ?_, ?_⟩ <;> simp [watchdog_feed, hand]

/-- Witness for C9 at a concrete stale-ESTOP watchdog. -/
theorem failed_clear_estop_then_feed_w :
    (watchdog_clear_estop ⟨WatchdogState.estop, 0, 0xFFFFFFFF⟩ 250).2 = -1
    ∧ (watchdog_clear_estop ⟨WatchdogState.estop, 0, 0xFFFFFFFF⟩ 250).1.state
        = WatchdogState.hold
    ∧ (watchdog_feed (watchdog_clear_estop
        ⟨WatchdogState.estop, 0, 0xFFFFFFFF⟩ 250).1 260).state
        = WatchdogState.normal
    ∧ (watchdog_feed (watchdog_clear_estop
        ⟨WatchdogState.estop, 0, 0xFFFFFFFF⟩ 250).1 260).faults
        &&& FAULT_HEARTBEAT_TIMEOUT = 0 :=
  failed_clear_estop_then_feed ⟨WatchdogState.estop, 0, 0xFFFFFFFF⟩ 250 260
    (by decide) (by decide)

/-- A check while NORMAL with a feed at most 250 ms old changes
nothing. -/
theorem watchdog_check_quiet (w : Watchdog) (now : Nat)
    (hs : w.state = WatchdogState.normal)
    (hle : now - w.last_feed_tick ≤ HEARTBEAT_TIMEOUT_MS) :
    watchdog_check w now = (w, []) := by
  unfold watchdog_check
  rw [if_neg (by rw [hs]; simp)]
  dsimp only
  rw [if_neg (by omega)]

/-- As long as every check time stays within 250 ms of the feed stamp,
iterated checks leave the watchdog untouched. -/
theorem watchdog_checks_quiet (w : Watchdog) (c0 t0 : Nat)
    (hs : w.state = WatchdogState.normal) (hl : w.last_feed_tick = t0) :
    ∀ j, (∀ i, i < j →
        c0 + WATCHDOG_CHECK_PERIOD_MS * i ≤ t0 + HEARTBEAT_TIMEOUT_MS) →
      watchdog_checks w c0 j = w := by
  intro j
  induction j with
  | zero => intro _; rfl
  | succ n ihn =>
    intro hb
    have h1 : c0 + WATCHDOG_CHECK_PERIOD_MS * n ≤ t0 + HEARTBEAT_TIMEOUT_MS :=
      hb n (Nat.lt_succ_self n)
    have h2 : watchdog_checks w c0 (n + 1)
        = (watchdog_check (watchdog_checks w c0 n)
            (c0 + WATCHDOG_CHECK_PERIOD_MS * n)).1 := rfl
    rw [h2, ihn (fun i hi => hb i (by omega)),
        watchdog_check_quiet w _ hs (by rw [hl]; omega)]

/-- A late check in NORMAL stores TIMEOUT and then HOLD in the same
iteration. -/
theorem watchdog_check_fires (w : Watchdog) (now : Nat)
    (hs : w.state = WatchdogState.normal)
    (hgt : w.last_feed_tick + HEARTBEAT_TIMEOUT_MS < now) :
    (watchdog_check w now).2
      = [WatchdogState.timeout, WatchdogState.hold] := by
  unfold watchdog_check
  rw [if_neg (by rw [hs]; simp)]
  dsimp only
  rw [if_pos (by omega : now - w.last_feed_tick > HEARTBEAT_TIMEOUT_MS),
      if_pos hs]
  rfl

/-- C6.  After a feed at t0 that leaves the watchdog NORMAL, every
check at a time within t0 + 250 ms keeps the state NORMAL; the first
check past the deadline (checks run every 25 ms from c0) stores TIMEOUT
(the fault is raised and the timeout callback fires before the same
iteration escalates to HOLD), and that check happens no later than
25 ms after the deadline. -/
theorem watchdog_timeout_within_one_period (w : Watchdog) (t0 c0 K : Nat)
    (hfed : (watchdog_feed w t0).state = WatchdogState.normal)
    (hK : 1 ≤ K)
    (hprev : c0 + WATCHDOG_CHECK_PERIOD_MS * (K - 1)
        ≤ t0 + HEARTBEAT_TIMEOUT_MS)
    (hlate : t0 + HEARTBEAT_TIMEOUT_MS < c0 + WATCHDOG_CHECK_PERIOD_MS * K) :
    (∀ j, j ≤ K →
      (watchdog_checks (watchdog_feed w t0) c0 j).state = WatchdogState.normal)
    ∧ WatchdogState.timeout ∈
        (watchdog_check (watchdog_checks (watchdog_feed w t0) c0 K)
          (c0 + WATCHDOG_CHECK_PERIOD_MS * K)).2
    ∧ c0 + WATCHDOG_CHECK_PERIOD_MS * K
        ≤ t0 + HEARTBEAT_TIMEOUT_MS + WATCHDOG_CHECK_PERIOD_MS := by
  have hfl : (watchdog_feed w t0).last_feed_tick = t0 := watchdog_feed_last w t0
  have hquiet : ∀ j, j ≤ K →
      watchdog_checks (watchdog_feed w t0) c0 j = watchdog_feed w t0 := by
    intro j hj
    refine watchdog_checks_quiet _ c0 t0 hfed hfl j (fun i hi => ?_)
    have hmul : WATCHDOG_CHECK_PERIOD_MS * i
        ≤ WATCHDOG_CHECK_PERIOD_MS * (K - 1) :=
      Nat.mul_le_mul_left _ (by omega)
    omega
  refine ⟨fun j hj => by rw [hquiet j hj]; exact hfed, ?_, ?_⟩
  · rw [hquiet K le_rfl,
        watchdog_check_fires _ _ hfed (by rw [hfl]; exact hlate)]
    simp
  · have h25 : WATCHDOG_CHECK_PERIOD_MS = 25 := rfl
    rw [h25] at hprev hlate ⊢
    omega

/-- Witness for C6: feed at 0, checks every 25 ms from 0; the 12th
check (at 275 ms) is the first past the 250 ms deadline. -/
theorem watchdog_timeout_within_one_period_w :
    (∀ j, j ≤ 11 →
      (watchdog_checks (watchdog_feed ⟨WatchdogState.normal, 0, 0⟩ 0) 0 j).state
        = WatchdogState.normal)
    ∧ WatchdogState.timeout ∈
        (watchdog_check
          (watchdog_checks (watchdog_feed ⟨WatchdogState.normal, 0, 0⟩ 0) 0 11)
          (0 + WATCHDOG_CHECK_PERIOD_MS * 11)).2
    ∧ 0 + WATCHDOG_CHECK_PERIOD_MS * 11
        ≤ 0 + HEARTBEAT_TIMEOUT_MS + WATCHDOG_CHECK_PERIOD_MS :=
  watchdog_timeout_within_one_period ⟨WatchdogState.normal, 0, 0⟩ 0 0 11
    (by decide) (by decide) (by decide) (by decide)

/-- Running n ticks of an active interpolation that does not yet reach
the duration only advances elapsed time. -/
theorem interpolator_run_active (n : Nat) : ∀ (st : InterpState) (out : List Nat),
    st.active = true → st.elapsed_ms + TICK_PERIOD_MS * n < st.duration_ms →
    (interpolator_run st out n).1
      = {st with elapsed_ms := st.elapsed_ms + TICK_PERIOD_MS * n} := by
  induction n with
  | zero =>
    intro st out ha hlt
    show st = _
    rw [Nat.mul_zero, Nat.add_zero]
  | succ m ih =>
    intro st out ha hlt
    have ht : TICK_PERIOD_MS = 20 := rfl
    have hrun : interpolator_run st out (m + 1)
        = interpolator_run (interpolator_tick st out).1
            (interpolator_tick st out).2.1 m := rfl
    have htick : (interpolator_tick st out).1
        = {st with elapsed_ms := st.elapsed_ms + TICK_PERIOD_MS} := by
      unfold interpolator_tick
      rw [if_neg (not_not_intro ha)]
      dsimp only
      rw [if_neg (by rw [ht] at hlt ⊢; omega)]
      cases st.mode <;> rfl
    have hactive : ((interpolator_tick st out).1).active = true := by
      rw [htick]
      exact ha
    rw [hrun, ih _ _ hactive (by rw [htick]; dsimp only; rw [ht] at hlt ⊢; omega),
        htick]
    dsimp only
    rw [ht]
    rw [show st.elapsed_ms + 20 + 20 * m = st.elapsed_ms + 20 * (m + 1) from by
      omega]

/-- Peeling one tick off a run. -/
theorem interpolator_run_one (st : InterpState) (out : List Nat) :
    interpolator_run st out 1
      = ((interpolator_tick st out).1, (interpolator_tick st out).2.1) := rfl

/-- Splitting a run into two. -/
theorem interpolator_run_add (a : Nat) : ∀ (b : Nat) (st : InterpState)
    (out : List Nat),
    interpolator_run st out (a + b)
      = interpolator_run (interpolator_run st out a).1
          (interpolator_run st out a).2 b := by
  induction a with
  | zero =>
    intro b st out
    rw [Nat.zero_add]
    rfl
  | succ m ih =>
    intro b st out
    have h1 : m + 1 + b = (m + b) + 1 := by omega
    rw [h1]
    have h2 : interpolator_run st out ((m + b) + 1)
        = interpolator_run (interpolator_tick st out).1
            (interpolator_tick st out).2.1 (m + b) := rfl
    rw [h2, ih]
    rfl

/-- A tick of an active interpolation whose elapsed time reaches the
duration snaps the output to the target and reports completion. -/
theorem interpolator_tick_snaps (st : InterpState) (out : List Nat)
    (ha : st.active = true)
    (hge : st.duration_ms ≤ st.elapsed_ms + TICK_PERIOD_MS) :
    (interpolator_tick st out).2 = (st.target_us, true) := by
  unfold interpolator_tick
  rw [if_neg (not_not_intro ha)]
  dsimp only
  rw [if_pos (by omega : st.elapsed_ms + TICK_PERIOD_MS ≥ st.duration_ms)]

/-- C7.  For every start pose, target pose and positive duration, the
interpolation completes after ceil(duration / 20 ms) ticks with the
output array snapped exactly to the target on all channels; a zero
duration is replaced by 1 ms, so that interpolation completes on the
first tick, also snapping to the target. -/
theorem interpolator_reaches_target_exactly (cur tgt out0 : List Nat)
    (d : Nat) (m : InterpMode) (hd : 0 < d) :
    (interpolator_run (interpolator_start cur tgt d m) out0 ((d + 19) / 20)).2
      = tgt
    ∧ (interpolator_start cur tgt 0 m).duration_ms = 1
    ∧ (interpolator_tick (interpolator_start cur tgt 0 m) out0).2 = (tgt, true) := by
  have hdur : (interpolator_start cur tgt d m).duration_ms = d := by
    unfold interpolator_start
    dsimp only
    rw [if_pos hd]
  refine ⟨?_, by unfold interpolator_start; simp, ?_⟩
  · have hk1 : 1 ≤ (d + 19) / 20 := by omega
    have hsplit : (d + 19) / 20 = ((d + 19) / 20 - 1) + 1 := by omega
    have hact := interpolator_run_active ((d + 19) / 20 - 1)
      (interpolator_start cur tgt d m) out0 rfl
      (by
        rw [hdur]
        show 0 + TICK_PERIOD_MS * ((d + 19) / 20 - 1) < d
        rw [show TICK_PERIOD_MS = 20 from rfl]
        omega)
    have ha1 : ((interpolator_run (interpolator_start cur tgt d m) out0
        ((d + 19) / 20 - 1)).1).active = true := by
      rw [hact]
      rfl
    have hge1 : ((interpolator_run (interpolator_start cur tgt d m) out0
          ((d + 19) / 20 - 1)).1).duration_ms
        ≤ ((interpolator_run (interpolator_start cur tgt d m) out0
          ((d + 19) / 20 - 1)).1).elapsed_ms + TICK_PERIOD_MS := by
      rw [hact]
      dsimp only
      rw [hdur, show (interpolator_start cur tgt d m).elapsed_ms = 0 from rfl,
          show TICK_PERIOD_MS = 20 from rfl]
      omega
    rw [hsplit, interpolator_run_add, interpolator_run_one]
    dsimp only
    rw [interpolator_tick_snaps _ _ ha1 hge1, hact]
    rfl
  · rw [interpolator_tick_snaps (interpolator_start cur tgt 0 m) out0 rfl
      (by
        rw [show (interpolator_start cur tgt 0 m).duration_ms = 1 from by
              unfold interpolator_start
              simp,
            show (interpolator_start cur tgt 0 m).elapsed_ms = 0 from rfl,
            show TICK_PERIOD_MS = 20 from rfl]
        omega)]
    rfl

/-- Witness for C7: thirteen channels from 1500 to 1800 over 60 ms in
Q16 mode snap to 1800 after ceil(60/20) = 3 ticks. -/
theorem interpolator_reaches_target_exactly_w :
    (interpolator_run
        (interpolator_start (List.replicate 13 1500) (List.replicate 13 1800)
          60 InterpMode.INTERP_MODE_Q16)
        (List.replicate 13 1500) ((60 + 19) / 20)).2
      = List.replicate 13 1800
    ∧ (interpolator_start (List.replicate 13 1500) (List.replicate 13 1800)
        0 InterpMode.INTERP_MODE_Q16).duration_ms = 1
    ∧ (interpolator_tick
        (interpolator_start (List.replicate 13 1500) (List.replicate 13 1800)
          0 InterpMode.INTERP_MODE_Q16)
        (List.replicate 13 1500)).2 = (List.replicate 13 1800, true) :=
  interpolator_reaches_target_exactly (List.replicate 13 1500)
    (List.replicate 13 1800) (List.replicate 13 1500) 60
    InterpMode.INTERP_MODE_Q16 (by decide)

/-- C10.  While the consumer has not applied any packet (last_seq is
still 0), the staleness check is disabled: any packet with valid magic,
version and CRC is accepted, whatever its sequence number. -/
theorem validate_accepts_any_seq_when_uninitialized (pkt : PosePacket31)
    (h1 : pkt.magic = SPIDER_MAGIC)
    (h2 : pkt.ver_major = SPIDER_VERSION_MAJOR)
    (h3 : pkt.ver_minor = SPIDER_VERSION_MINOR)
    (h4 : crc16_ccitt_false (posepacket31_bytes40 pkt) = pkt.crc16) :
    validate_packet pkt 0 = 0 := by
  unfold validate_packet
  simp [h1, h2, h3, h4]

/-- Witness for C10: a concrete valid packet with sequence number 0 is
accepted by the uninitialized consumer. -/
theorem validate_accepts_any_seq_when_uninitialized_w :
    seqZeroPkt.seq = 0 ∧ validate_packet seqZeroPkt 0 = 0 :=
  ⟨by decide,
   validate_accepts_any_seq_when_uninitialized seqZeroPkt (by decide)
     (by decide) (by decide) crc_seqZeroPkt_ok⟩

end Milkspider

